import Mathlib

/-!
Shallow embedding of `src/deployment/src/process_data.py` and of the
flight-file merging logic of `src/deployment/src/streamlit_app_V2_1.py`
(function `load_data`), together with theorems settling the frozen claims
about the COVID/flight aggregation pipeline.

Modelling conventions:
* Spark `DataFrame`s are Lean `List`s of record structures; a nullable
  column is an `Option`.
* Spark SQL null semantics are made explicit: `F.sum` / `F.max` ignore
  nulls and return null on an all-null (or empty) group (`sparkSum`,
  `sparkMax`); arithmetic on a null operand yields null (`optSub`);
  `isin` and `!=` comparisons involving null are null, hence falsy in a
  `filter` (`optIsin`, `sparkNeq`).
* `groupBy(...).agg(...)` is `groupAgg`: one output element per distinct
  key, aggregating the sublist of rows with that key.  Spark leaves the
  group order unspecified; every `groupBy` in the source is followed by a
  `.sort`, modelled with `List.insertionSort`, which canonicalises the
  order on the (distinct) keys.
* The window `Window.partitionBy().orderBy('date')` of
  `process_covid_daily_data` has an empty partition spec, so it ranges
  over the whole table ordered by `date` alone.  Spark does not specify
  the relative order of rows with equal `date`; the model orders ties by
  the stable sort applied to the preceding `(Country_Region, date)`
  order, which is one admissible Spark execution.
* Timestamps are modelled at day precision (`CDate`), which is exactly
  the precision retained by `date_format(..., 'yyyy-MM-dd')`.
-/

/-- Calendar date at day precision (`date_format(col, 'yyyy-MM-dd')`). -/
structure CDate where
  y : Nat
  m : Nat
  d : Nat
  deriving DecidableEq

/-- Distinct keys of a list, in first-appearance order (the key set of a
Spark `groupBy`). -/
def keysOf {α κ : Type} [DecidableEq κ] (key : α → κ) (l : List α) : List κ :=
  (l.map key).dedup

/-- Model of `groupBy(key).agg(...)`: one `(key, agg of matching rows)`
pair per distinct key. -/
def groupAgg {α κ β : Type} [DecidableEq κ] (key : α → κ) (agg : List α → β)
    (l : List α) : List (κ × β) :=
  (keysOf key l).map (fun k => (k, agg (l.filter (fun a => decide (key a = k)))))

/-- Spark `F.sum` over a nullable integer column: nulls are ignored, an
empty or all-null group sums to null. -/
def sparkSum (l : List (Option Int)) : Option Int :=
  match l.filterMap id with
  | [] => none
  | x :: xs => some (x :: xs).sum

/-- Spark `F.max` over a nullable integer column: nulls are ignored, an
empty or all-null group has a null max. -/
def sparkMax (l : List (Option Int)) : Option Int :=
  match l.filterMap id with
  | [] => none
  | x :: xs => some (xs.foldl max x)

/-- Spark column subtraction: null if either operand is null. -/
def optSub : Option Int → Option Int → Option Int
  | some a, some b => some (a - b)
  | _, _ => none

/-- Spark `col.isin(values)`: null is never a member. -/
def optIsin (v : Option String) (values : List String) : Bool :=
  match v with
  | some s => values.contains s
  | none => false

/-- Lexicographic `<` on char lists by code point; this is the order of
`String.lt`, re-stated so that it reduces inside the kernel. -/
def charListLt : List Char → List Char → Bool
  | [], [] => false
  | [], _ :: _ => true
  | _ :: _, [] => false
  | a :: as, b :: bs =>
      Nat.blt a.toNat b.toNat || (a.toNat == b.toNat && charListLt as bs)

/-- Boolean strict lexicographic order on strings. -/
def strLtB (a b : String) : Bool := charListLt a.data b.data

/-- Boolean lexicographic `≤` on strings. -/
def strLeB (a b : String) : Bool := a == b || strLtB a b

/-- Boolean `≤` on `Option String`, nulls first (Spark ascending sort). -/
def optStrLe (a b : Option String) : Bool :=
  match a, b with
  | none, _ => true
  | some _, none => false
  | some x, some y => strLeB x y

/-- Boolean `<` on `Option String`, nulls first. -/
def optStrLt (a b : Option String) : Bool :=
  match a, b with
  | none, none => false
  | none, some _ => true
  | some _, none => false
  | some x, some y => strLtB x y

/-- Boolean `≤` on dates (lexicographic year, month, day). -/
def dateLe (a b : CDate) : Bool :=
  decide (a.y < b.y) ||
    (a.y == b.y && (decide (a.m < b.m) || (a.m == b.m && decide (a.d ≤ b.d))))

/-- Boolean `≤` on nullable dates, nulls first. -/
def optDateLe (a b : Option CDate) : Bool :=
  match a, b with
  | none, _ => true
  | some _, none => false
  | some x, some y => dateLe x y

/-- Boolean `≤` on nullable `(year, month)` pairs, nulls first. -/
def optYmLe (a b : Option (Nat × Nat)) : Bool :=
  match a, b with
  | none, _ => true
  | some _, none => false
  | some x, some y =>
      decide (x.1 < y.1) || (x.1 == y.1 && decide (x.2 ≤ y.2))

/-- Boolean `<` on nullable `(year, month)` pairs, nulls first. -/
def optYmLt (a b : Option (Nat × Nat)) : Bool :=
  match a, b with
  | none, none => false
  | none, some _ => true
  | some _, none => false
  | some x, some y =>
      decide (x.1 < y.1) || (x.1 == y.1 && decide (x.2 < y.2))

/-!  COVID case processing (`process_data.py`, COVID section).

A raw daily case row, restricted to the columns that
`process_covid_daily_data` selects at line 94 (`date` + location
hierarchy + the four counters); the remaining schema columns (`FIPS`,
`Lat`, `Long_`, `Combined_Key`, `Incident_Rate`, `Case_Fatality_Ratio`)
are dropped by that select and never used. -/

/-- One row of a daily COVID snapshot file (nullable columns per the
explicit `StructType` schema of `load_covid_data`). -/
structure CovidRow where
  admin2 : Option String
  provinceState : Option String
  countryRegion : Option String
  lastUpdate : Option CDate
  confirmed : Option Int
  deaths : Option Int
  recovered : Option Int
  active : Option Int
  deriving DecidableEq

/-- One row after `groupBy('date', 'Country_Region').agg(sum each stat)`. -/
structure CovidGroupRow where
  date : Option CDate
  countryRegion : Option String
  confirmed : Option Int
  deaths : Option Int
  recovered : Option Int
  active : Option Int
  deriving DecidableEq

/-- One row of the daily output table: per-counter cumulative value and
day-over-day `_daily_new` delta. -/
structure CovidDailyRow where
  date : Option CDate
  countryRegion : Option String
  confirmedCumulative : Option Int
  deathsCumulative : Option Int
  recoveredCumulative : Option Int
  activeCumulative : Option Int
  confirmedDailyNew : Option Int
  deathsDailyNew : Option Int
  recoveredDailyNew : Option Int
  activeDailyNew : Option Int
  deriving DecidableEq

/-- One row of the monthly output table of `process_covid_monthly_data`. -/
structure CovidMonthlyRow where
  yearMonth : Option (Nat × Nat)
  countryRegion : Option String
  confirmedCumulative : Option Int
  deathsCumulative : Option Int
  recoveredCumulative : Option Int
  activeCumulative : Option Int
  confirmedMonthlyNew : Option Int
  deathsMonthlyNew : Option Int
  recoveredMonthlyNew : Option Int
  activeMonthlyNew : Option Int
  deriving DecidableEq

/-- Date-validity filter of `process_covid_daily_data` line 111:
`na.drop(subset=['date'])` followed by
`filter((F.year('date') >= 2020) & (F.year('date') <= 2024))`. -/
def covidDateOk (r : CovidRow) : Bool :=
  match r.lastUpdate with
  | some dt => decide (2020 ≤ dt.y) && decide (dt.y ≤ 2024)
  | none => false

/-- Lines 88-111: optional country filter, derivation of `date` from
`Last_Update` (kept at day precision), and the date-validity filter. -/
def cleanCovidDaily (df : List CovidRow) (country : Option (List String)) :
    List CovidRow :=
  let dfc :=
    match country with
    | none => df
    | some cs => df.filter (fun r => optIsin r.countryRegion cs)
  dfc.filter covidDateOk

/-- Grouping key of line 114: `('date', 'Country_Region')`. -/
def covidKey (r : CovidRow) : Option CDate × Option String :=
  (r.lastUpdate, r.countryRegion)

/-- Aggregated row for one `(date, Country_Region)` group (line 114-115:
`F.sum` of each of the four counters). -/
def covidGroupOf (k : Option CDate × Option String) (rs : List CovidRow) :
    CovidGroupRow :=
  { date := k.1
    countryRegion := k.2
    confirmed := sparkSum (rs.map (·.confirmed))
    deaths := sparkSum (rs.map (·.deaths))
    recovered := sparkSum (rs.map (·.recovered))
    active := sparkSum (rs.map (·.active)) }

/-- Sort key of line 116: `['Country_Region', 'date']` ascending. -/
def covidGroupLe (a b : CovidGroupRow) : Bool :=
  optStrLt a.countryRegion b.countryRegion ||
    (a.countryRegion == b.countryRegion && optDateLe a.date b.date)

/-- Lines 88-116 of `process_covid_daily_data`: clean, aggregate by
`(date, Country_Region)`, sort by `(Country_Region, date)`. -/
def covidDailyAgg (df : List CovidRow) (country : Option (List String)) :
    List CovidGroupRow :=
  List.insertionSort (fun a b => covidGroupLe a b = true)
    ((groupAgg covidKey id (cleanCovidDaily df country)).map
      (fun p => covidGroupOf p.1 p.2))

/-- Window order of line 121: `Window.partitionBy().orderBy('date')` —
an empty partition spec, so one global window ordered by `date` only. -/
def windowDateLe (a b : CovidGroupRow) : Bool :=
  optDateLe a.date b.date

/-- Lines 119-122 applied to one row given the previous row of the
global date-ordered window: each counter is renamed to `_cumulative` and
`_daily_new` is `F.col(stat) - F.lag(stat)` (null for the window's first
row, and null whenever either operand is null). -/
def lagSub (prev : Option CovidGroupRow) (cur : CovidGroupRow) : CovidDailyRow :=
  { date := cur.date
    countryRegion := cur.countryRegion
    confirmedCumulative := cur.confirmed
    deathsCumulative := cur.deaths
    recoveredCumulative := cur.recovered
    activeCumulative := cur.active
    confirmedDailyNew :=
      match prev with
      | some p => optSub cur.confirmed p.confirmed
      | none => none
    deathsDailyNew :=
      match prev with
      | some p => optSub cur.deaths p.deaths
      | none => none
    recoveredDailyNew :=
      match prev with
      | some p => optSub cur.recovered p.recovered
      | none => none
    activeDailyNew :=
      match prev with
      | some p => optSub cur.active p.active
      | none => none }

/-- Applies `lagSub` along a list, threading each row as the `lag` of the
next. -/
def withLag : Option CovidGroupRow → List CovidGroupRow → List CovidDailyRow
  | _, [] => []
  | prev, r :: rs => lagSub prev r :: withLag (some r) rs

/-- `process_covid_daily_data(df, country)` (lines 74-132): country
filter, date cleaning, `(date, Country_Region)` aggregation, and the
four `_daily_new` window columns computed over the single global window
ordered by `date`. -/
def process_covid_daily_data (df : List CovidRow)
    (country : Option (List String)) : List CovidDailyRow :=
  withLag none
    (List.insertionSort (fun a b => windowDateLe a b = true)
      (covidDailyAgg df country))

/-- Line 147: `year_month = date_format('date', 'yyyy-MM')`. -/
def ymOf (d : Option CDate) : Option (Nat × Nat) :=
  d.map (fun dt => (dt.y, dt.m))

/-- Grouping key of line 148: `('year_month', 'Country_Region')`. -/
def monthKey (r : CovidDailyRow) : Option (Nat × Nat) × Option String :=
  (ymOf r.date, r.countryRegion)

/-- Aggregated row for one `(year_month, Country_Region)` group (lines
149-150: `F.max` of each `_cumulative`, `F.sum` of each `_daily_new`). -/
def covidMonthOf (k : Option (Nat × Nat) × Option String)
    (rs : List CovidDailyRow) : CovidMonthlyRow :=
  { yearMonth := k.1
    countryRegion := k.2
    confirmedCumulative := sparkMax (rs.map (·.confirmedCumulative))
    deathsCumulative := sparkMax (rs.map (·.deathsCumulative))
    recoveredCumulative := sparkMax (rs.map (·.recoveredCumulative))
    activeCumulative := sparkMax (rs.map (·.activeCumulative))
    confirmedMonthlyNew := sparkSum (rs.map (·.confirmedDailyNew))
    deathsMonthlyNew := sparkSum (rs.map (·.deathsDailyNew))
    recoveredMonthlyNew := sparkSum (rs.map (·.recoveredDailyNew))
    activeMonthlyNew := sparkSum (rs.map (·.activeDailyNew)) }

/-- Sort key of line 151: `['Country_Region', 'year_month']` ascending. -/
def covidMonthLe (a b : CovidMonthlyRow) : Bool :=
  optStrLt a.countryRegion b.countryRegion ||
    (a.countryRegion == b.countryRegion && optYmLe a.yearMonth b.yearMonth)

/-- `process_covid_monthly_data(df)` (lines 135-152): tag `year_month`,
group by `(year_month, Country_Region)` taking max of cumulatives and
sum of daily deltas, sort by `(Country_Region, year_month)`. -/
def process_covid_monthly_data (df : List CovidDailyRow) :
    List CovidMonthlyRow :=
  List.insertionSort (fun a b => covidMonthLe a b = true)
    ((groupAgg monthKey id df).map (fun p => covidMonthOf p.1 p.2))

/-!  Flight processing (`process_data.py`, flight section). -/

/-- One raw itinerary row, restricted to the columns selected by
`load_flight_data` (`'day', 'origin', 'destination'`); `day` is kept at
day precision, matching `F.to_date`. -/
structure FlightRow where
  day : Option CDate
  origin : Option String
  destination : Option String
  deriving DecidableEq

/-- One row of `airports.csv` restricted to the columns used
(`airports.select('icao', 'country')`); `country` holds an alpha-2
country code. -/
structure Airport where
  icao : String
  country : Option String
  deriving DecidableEq

/-- One row of `countries.csv` after the renames and select of
`load_countries` (`country`, `country_code`). -/
structure CountryRef where
  country : Option String
  country_code : Option String
  deriving DecidableEq

/-- One row of the output of `map_flight_data` (after the joins, renames
and the final select). -/
structure MappedRow where
  day : Option CDate
  year_month : Option (Nat × Nat)
  origin_country_code : Option String
  destination_country_code : Option String
  origin_icao : Option String
  destination_icao : Option String
  origin_country : Option String
  destination_country : Option String
  deriving DecidableEq

/-- Airports whose `icao` equals the given join key; a null key matches
nothing (Spark `==` with null is null). -/
def airportMatches (airports : List Airport) (v : Option String) : List Airport :=
  match v with
  | some s => airports.filter (fun a => a.icao == s)
  | none => []

/-- Reference rows whose `country_code` equals the given join key; a
null key (or null `country_code`) matches nothing. -/
def countryMatches (countries : List CountryRef) (v : Option String) :
    List CountryRef :=
  match v with
  | some s => countries.filter (fun c => c.country_code == some s)
  | none => []

/-- Left-join expansion of one left row: one output per matching right
row, or a single null-padded row when nothing matches. -/
def leftRows {α β : Type} (ms : List α) (f : α → β) (nullRow : β) : List β :=
  match ms with
  | [] => [nullRow]
  | _ => ms.map f

/-- Intermediate row after the two airport joins, the select of line 201
and the `day`/`year_month` derivation of lines 202-204; at this stage
`origin_country`/`destination_country` still hold airport country
codes (they are renamed to `_country_code` by the later joins). -/
structure FlightAirportRow where
  day : Option CDate
  year_month : Option (Nat × Nat)
  origin_country : Option String
  destination_country : Option String
  origin_icao : Option String
  destination_icao : Option String
  deriving DecidableEq

/-- `map_flight_data(df_flight, airports, countries)` (lines 185-219):
two left joins against `airports` on `icao`, derivation of `day` and
`year_month`, two left joins against `countries` on `country_code`
renaming the code columns, and the final not-null filter on
`origin_country`, `destination_country` and `day`. -/
def map_flight_data (df_flight : List FlightRow) (airports : List Airport)
    (countries : List CountryRef) : List MappedRow :=
  let j2 : List FlightAirportRow := df_flight.flatMap (fun f =>
    (leftRows (airportMatches airports f.origin)
        (fun a => (a.country, some a.icao)) (none, none)).flatMap (fun o =>
      (leftRows (airportMatches airports f.destination)
          (fun a => (a.country, some a.icao)) (none, none)).map (fun dd =>
        { day := f.day
          year_month := ymOf f.day
          origin_country := o.1
          destination_country := dd.1
          origin_icao := o.2
          destination_icao := dd.2 })))
  let j3 : List (FlightAirportRow × Option String) := j2.flatMap (fun r =>
    leftRows (countryMatches countries r.origin_country)
      (fun c => (r, c.country)) (r, none))
  let j4 : List MappedRow := j3.flatMap (fun rc =>
    leftRows (countryMatches countries rc.1.destination_country)
      (fun c =>
        { day := rc.1.day
          year_month := rc.1.year_month
          origin_country_code := rc.1.origin_country
          destination_country_code := rc.1.destination_country
          origin_icao := rc.1.origin_icao
          destination_icao := rc.1.destination_icao
          origin_country := rc.2
          destination_country := c.country })
      { day := rc.1.day
        year_month := rc.1.year_month
        origin_country_code := rc.1.origin_country
        destination_country_code := rc.1.destination_country
        origin_icao := rc.1.origin_icao
        destination_icao := rc.1.destination_icao
        origin_country := rc.2
        destination_country := none })
  j4.filter (fun r =>
    r.origin_country.isSome && r.destination_country.isSome && r.day.isSome)

/-- Direction parameter of `process_flight_data` (the assert at line 232
restricts it to these two values). -/
inductive FDirection where
  | origin
  | destination
  deriving DecidableEq

/-- Granularity parameter of `process_flight_data` (assert at line 233). -/
inductive FGranular where
  | day
  | year_month
  deriving DecidableEq

/-- Value of the time-bucket grouping column: the `day` column or the
`year_month` column, depending on the granularity. -/
inductive TimeBucket where
  | day (d : CDate)
  | month (ym : Nat × Nat)
  deriving DecidableEq

/-- The `{direction}_country` column used by the country filter. -/
def dirCountry : FDirection → MappedRow → Option String
  | .origin, r => r.origin_country
  | .destination, r => r.destination_country

/-- The nullable time-bucket value of a row for a granularity. -/
def granValue : FGranular → MappedRow → Option TimeBucket
  | .day, r => r.day.map TimeBucket.day
  | .year_month, r => r.year_month.map TimeBucket.month

/-- Grouping key of line 240: the granular column plus the four country
name/code columns. -/
structure FKey where
  time : Option TimeBucket
  origin_country : Option String
  origin_country_code : Option String
  destination_country : Option String
  destination_country_code : Option String
  deriving DecidableEq

/-- Key of one mapped row for a given granularity. -/
def fKeyOf (granular : FGranular) (r : MappedRow) : FKey :=
  { time := granValue granular r
    origin_country := r.origin_country
    origin_country_code := r.origin_country_code
    destination_country := r.destination_country
    destination_country_code := r.destination_country_code }

/-- Spark `F.col(a) != F.col(b)` used as a filter at line 238: null if
either side is null (hence falsy), otherwise plain disequality. -/
def sparkNeq (a b : Option String) : Bool :=
  match a, b with
  | some x, some y => decide (x ≠ y)
  | _, _ => false

/-- Boolean `≤` on time buckets (day buckets by date, month buckets by
year then month; the two constructors never mix within one run). -/
def timeLe (a b : TimeBucket) : Bool :=
  match a, b with
  | .day x, .day y => dateLe x y
  | .month x, .month y => decide (x.1 < y.1) || (x.1 == y.1 && decide (x.2 ≤ y.2))
  | .day _, .month _ => true
  | .month _, .day _ => false

/-- Boolean `≤` on nullable time buckets, nulls first. -/
def optTimeLe (a b : Option TimeBucket) : Bool :=
  match a, b with
  | none, _ => true
  | some _, none => false
  | some x, some y => timeLe x y

/-- The `{direction}_country_code` column of a key. -/
def fKeyDirCode : FDirection → FKey → Option String
  | .origin, k => k.origin_country_code
  | .destination, k => k.destination_country_code

/-- Sort key of line 242: `({direction}_country_code,
{opposite_direction}_country_code, granular)` ascending.  The opposite
direction is computed as at line 234. -/
def fAggLe (direction : FDirection) (a b : FKey × Nat) : Bool :=
  let opposite : FDirection :=
    match direction with
    | .destination => .origin
    | .origin => .destination
  optStrLt (fKeyDirCode direction a.1) (fKeyDirCode direction b.1) ||
    (fKeyDirCode direction a.1 == fKeyDirCode direction b.1 &&
      (optStrLt (fKeyDirCode opposite a.1) (fKeyDirCode opposite b.1) ||
        (fKeyDirCode opposite a.1 == fKeyDirCode opposite b.1 &&
          optTimeLe a.1.time b.1.time)))

/-- Row filters of `process_flight_data` lines 235-238: the optional
country allow-list filter on the `{direction}_country` column (applied
only when the Python list is truthy, i.e. non-`None` and non-empty),
followed by the unconditional domestic-flight exclusion
`origin_country_code != destination_country_code`. -/
def flightKept (direction : FDirection) (country : Option (List String))
    (df : List MappedRow) : List MappedRow :=
  let df1 :=
    match country with
    | some (c :: cs) => df.filter (fun r => optIsin (dirCountry direction r) (c :: cs))
    | _ => df
  df1.filter (fun r => sparkNeq r.origin_country_code r.destination_country_code)

/-- `process_flight_data(df, direction, granular, country)` (lines
221-243): country filter, domestic exclusion, `groupBy` on the granular
column and the four country columns with `F.count('*')` as
`flight_count`, sorted per line 242.  A row of the result is the
grouping key paired with its `flight_count`. -/
def process_flight_data (df : List MappedRow) (direction : FDirection)
    (granular : FGranular) (country : Option (List String)) :
    List (FKey × Nat) :=
  List.insertionSort (fun a b => fAggLe direction a b = true)
    (groupAgg (fKeyOf granular) List.length (flightKept direction country df))

/-!  Dashboard flight-file merging (`streamlit_app_V2_1.py`, `load_data`
lines 62-66).  An exported flight file round-trips through CSV as the
list of aggregated rows it was written from; `fillna(0)` on
`flight_count` is the identity here because `F.count('*')` never
produces null. -/

/-- All five key columns are non-null (pandas `groupby` silently drops
rows with a null in any grouping key). -/
def fKeyAllSome (k : FKey) : Bool :=
  k.time.isSome && k.origin_country.isSome && k.origin_country_code.isSome &&
    k.destination_country.isSome && k.destination_country_code.isSome

/-- Sort order of the pandas `groupby` result: lexicographic on the key
tuple `(year_month, destination_country, destination_country_code,
origin_country, origin_country_code)`. -/
def mergeKeyLe (a b : FKey) : Bool :=
  optTimeLe a.time b.time &&
    (a.time != b.time ||
      (optStrLe a.destination_country b.destination_country &&
        (a.destination_country != b.destination_country ||
          (optStrLe a.destination_country_code b.destination_country_code &&
            (a.destination_country_code != b.destination_country_code ||
              (optStrLe a.origin_country b.origin_country &&
                (a.origin_country != b.origin_country ||
                  optStrLe a.origin_country_code b.origin_country_code)))))))

/-- Dashboard merge of exported flight files (lines 63-65 of
`load_data`): concatenate, then
`groupby(['year_month', 'destination_country', 'destination_country_code',
'origin_country', 'origin_country_code'])['flight_count'].sum()`. -/
def mergeFlightFiles (f1 f2 : List (FKey × Nat)) : List (FKey × Nat) :=
  let rows := (f1 ++ f2).filter (fun p => fKeyAllSome p.1)
  List.insertionSort (fun a b => mergeKeyLe a.1 b.1 = true)
    (groupAgg Prod.fst (fun ps => (ps.map Prod.snd).sum) rows)

/-- Total `flight_count` carried by a given key in a flight table (sums
every row whose key equals `k`; 0 when the key is absent). -/
def flightLookup (l : List (FKey × Nat)) (k : FKey) : Nat :=
  ((l.filter (fun p => decide (p.1 = k))).map Prod.snd).sum

/-!  The pipeline entry point `main` (`process_data.py` lines 249-291).

File access and the Spark session are the only effects; they are
abstracted into an `Env` record.  `load_covid_data` and
`load_flight_data` wrap `spark.read.csv` in try/except and return `None`
on failure, so they appear as `Option`-returning loaders;
`load_airports` and `load_countries` have no handler, so a failure there
propagates as an exception, modelled with `Except`. -/

deriving instance DecidableEq for Except

/-- The effectful surroundings of one pipeline run. -/
structure Env where
  covidLoad : String → Option (List CovidRow)
  flightLoad : String → Option (List FlightRow)
  airportsLoad : Except String (List Airport)
  countriesLoad : Except String (List CountryRef)

/-- `load_covid_data` (lines 45-71): reads the files matching the batch
date pattern, or returns `None` after logging on failure. -/
def load_covid_data (env : Env) (batch_date : String) : Option (List CovidRow) :=
  env.covidLoad batch_date

/-- `load_flight_data` (lines 174-182): truncates the batch date to
`YYYYMM` and reads the matching monthly file, or returns `None` after
logging on failure. -/
def load_flight_data (env : Env) (batch_date : String) : Option (List FlightRow) :=
  env.flightLoad (batch_date.take 6)

/-- The per-entry substitution of line 261:
`i if i != 'US' else 'United States'`. -/
def usReplace (i : String) : String :=
  if i = "US" then "United States" else i

/-- Python truthiness of a list (`if country:`): true iff non-empty. -/
def pyTruthyL (l : List String) : Bool :=
  !l.isEmpty

/-- Python `str.replace` for a single-character pattern: every
occurrence of the character is replaced by the given string. -/
def replaceCharStr (c : Char) (r : String) (s : String) : String :=
  String.mk ((s.data.map (fun ch => if ch == c then r.data else [ch])).flatten)

/-- Scope token of the output filenames (lines 285 and 288):
`'__'.join(country).replace(' ', '_').replace('*', 'all')`. -/
def scopeOf (country : List String) : String :=
  replaceCharStr '*' "all" (replaceCharStr ' ' "_" (String.intercalate "__" country))

/-- Observable outcome of one `main` run: each output file that was
written (name paired with table), and the returned triple or the
uncaught exception.  Files written before an exception are kept, since
the corresponding `to_csv` calls precede the raise point. -/
structure MainOutcome where
  covidAllFile : Option (String × List CovidMonthlyRow)
  covidCountryFile : Option (String × List CovidMonthlyRow)
  flightFile : Option (String × List (FKey × Nat))
  result : Except String
    (Option (List MappedRow) × Option (List CovidMonthlyRow) × List CovidMonthlyRow)

/-- Names of the files written by a run, in write order (lines 282, 285,
288). -/
def MainOutcome.saved (o : MainOutcome) : List String :=
  (o.covidAllFile.map Prod.fst).toList ++ (o.covidCountryFile.map Prod.fst).toList ++
    (o.flightFile.map Prod.fst).toList

/-- The all-countries COVID monthly table written by a run ([] if the
file was not written). -/
def MainOutcome.covidAllRows (o : MainOutcome) : List CovidMonthlyRow :=
  ((o.covidAllFile.map Prod.snd).getD [])

/-- The country-filtered COVID monthly table written by a run ([] if the
file was not written). -/
def MainOutcome.covidCountryRows (o : MainOutcome) : List CovidMonthlyRow :=
  ((o.covidCountryFile.map Prod.snd).getD [])

/-- The COVID batch-date glob of line 256:
`f'{year_month[4:] if len(year_month) > 4 else "*"}-*-{year_month[:4] if len(year_month) >= 4 else "*"}'`. -/
def covidPattern (year_month : String) : String :=
  (if year_month.length > 4 then year_month.drop 4 else "*") ++ "-*-" ++
    (if year_month.length ≥ 4 then year_month.take 4 else "*")

/-- Lines 263-269: the COVID branch.  A failed load yields `None`;
otherwise the daily processing is invoked with `None` as the country
filter (line 265 passes `None`, with the comment "need all country"),
then rolled up to months. -/
def covidStage (env : Env) (covid_year_month : String) :
    Option (List CovidMonthlyRow) :=
  match load_covid_data env covid_year_month with
  | some dfc => some (process_covid_monthly_data (process_covid_daily_data dfc none))
  | none => none

/-- Lines 273-291, after both reference tables loaded successfully: the
flight branch (map, then aggregate by destination and year-month with
the substituted allow-list), the three exports, and the final `return`.
The `return` at line 291 references `covid_monthly_country`, which was
assigned only under `covid_monthly is not None` and `if country:`
(lines 281-284); otherwise the return raises `NameError`.  Files are
written before that point, so they survive the exception. -/
def mainWithRefs (env : Env) (year_month : String) (cs : List String)
    (airports : List Airport) (countries : List CountryRef)
    (covidMonthly : Option (List CovidMonthlyRow)) : MainOutcome :=
  let flight_country := cs.map usReplace
  let flightMapped : Option (List MappedRow) :=
    (load_flight_data env year_month).map
      (fun f => map_flight_data f airports countries)
  let flightMonthly : Option (List (FKey × Nat)) :=
    flightMapped.map
      (fun m => process_flight_data m .destination .year_month (some flight_country))
  let covidAllFile :=
    covidMonthly.map (fun cm => ("covid_" ++ year_month ++ "_all.csv", cm))
  let covidCountryTable : Option (List CovidMonthlyRow) :=
    match covidMonthly with
    | some cm =>
        if pyTruthyL cs then
          some (cm.filter (fun r => optIsin r.countryRegion cs))
        else none
    | none => none
  let covidCountryFile :=
    covidCountryTable.map
      (fun t => ("covid_" ++ year_month ++ "_" ++ scopeOf cs ++ ".csv", t))
  let flightFile :=
    flightMonthly.map
      (fun fm => ("flight_" ++ year_month ++ "_" ++ scopeOf cs ++ ".csv", fm))
  match covidCountryTable with
  | some cmc =>
      { covidAllFile := covidAllFile, covidCountryFile := covidCountryFile,
        flightFile := flightFile,
        result := Except.ok (flightMapped, covidMonthly, cmc) }
  | none =>
      { covidAllFile := covidAllFile, covidCountryFile := covidCountryFile,
        flightFile := flightFile,
        result := Except.error "NameError: name covid_monthly_country is not defined" }

/-- `main(data_path, ..., year_month, country)` (lines 249-291); named
`mainRun` because Lean reserves `main` for executable entry points.

Control flow follows the source: the COVID pattern is built at line 256;
`country.copy()` at line 260 raises `AttributeError` when the optional
country list was omitted (`None`); the COVID branch runs first (lines
263-269); a reference-table load failure at line 271/272 propagates
uncaught; the rest is `mainWithRefs`. -/
def mainRun (env : Env) (year_month : String) (country : Option (List String)) :
    MainOutcome :=
  let covid_year_month := covidPattern year_month
  match country with
  | none =>
      { covidAllFile := none, covidCountryFile := none, flightFile := none,
        result := Except.error "AttributeError: NoneType object has no attribute copy" }
  | some cs =>
      let covidMonthly := covidStage env covid_year_month
      match env.airportsLoad with
      | Except.error e =>
          { covidAllFile := none, covidCountryFile := none, flightFile := none,
            result := Except.error e }
      | Except.ok airports =>
      match env.countriesLoad with
      | Except.error e =>
          { covidAllFile := none, covidCountryFile := none, flightFile := none,
            result := Except.error e }
      | Except.ok countries =>
          mainWithRefs env year_month cs airports countries covidMonthly

/-!  Concrete data used by the evaluation theorems and witnesses. -/

/-- A raw case row of country `A`, dated 2021-01-01, 5 confirmed. -/
def cRowA : CovidRow :=
  { admin2 := none, provinceState := none, countryRegion := some "A",
    lastUpdate := some ⟨2021, 1, 1⟩, confirmed := some 5, deaths := some 0,
    recovered := some 0, active := some 0 }

/-- A raw case row of country `B`, dated 2021-01-02, 7 confirmed; the
first (and only) row of country `B`'s series. -/
def cRowB : CovidRow :=
  { admin2 := none, provinceState := none, countryRegion := some "B",
    lastUpdate := some ⟨2021, 1, 2⟩, confirmed := some 7, deaths := some 0,
    recovered := some 0, active := some 0 }

/-- A raw case row with the corrupt date 2682-01-01 mentioned by the
module docstring. -/
def cRowBad : CovidRow :=
  { admin2 := none, provinceState := none, countryRegion := some "A",
    lastUpdate := some ⟨2682, 1, 1⟩, confirmed := some 9, deaths := some 0,
    recovered := some 0, active := some 0 }

/-- Example airports reference table. -/
def exAirports : List Airport :=
  [{ icao := "KJFK", country := some "US" }, { icao := "ZBAA", country := some "CN" }]

/-- Example countries reference table. -/
def exCountries : List CountryRef :=
  [{ country := some "United States", country_code := some "US" },
   { country := some "China", country_code := some "CN" }]

/-- Example raw itinerary batch: one flight ZBAA → KJFK on 2021-01-05. -/
def exFlights : List FlightRow :=
  [{ day := some ⟨2021, 1, 5⟩, origin := some "ZBAA", destination := some "KJFK" }]

/-- The mapped itinerary corresponding to `exFlights` under the example
reference tables: a China → United States flight. -/
def mRow : MappedRow :=
  { day := some ⟨2021, 1, 5⟩, year_month := some (2021, 1),
    origin_country_code := some "CN", destination_country_code := some "US",
    origin_icao := some "ZBAA", destination_icao := some "KJFK",
    origin_country := some "China", destination_country := some "United States" }

/-- The grouping key of `mRow` at year-month granularity. -/
def mKey : FKey := fKeyOf FGranular.year_month mRow

/-- Environment in which every load succeeds. -/
def exEnv : Env :=
  { covidLoad := fun _ => some [cRowA, cRowB],
    flightLoad := fun _ => some exFlights,
    airportsLoad := Except.ok exAirports,
    countriesLoad := Except.ok exCountries }

/-- Environment in which the COVID input file for the period is missing
(the loader's try/except yields `None`) while everything else succeeds. -/
def exEnvNoCovid : Env :=
  { covidLoad := fun _ => none,
    flightLoad := fun _ => some exFlights,
    airportsLoad := Except.ok exAirports,
    countriesLoad := Except.ok exCountries }

/-- The daily output row produced for `cRowA` alone (used to witness the
year-range invariant on a concrete member of the output). -/
def c4Row : CovidDailyRow :=
  { date := some ⟨2021, 1, 1⟩, countryRegion := some "A",
    confirmedCumulative := some 5, deathsCumulative := some 0,
    recoveredCumulative := some 0, activeCumulative := some 0,
    confirmedDailyNew := none, deathsDailyNew := none,
    recoveredDailyNew := none, activeDailyNew := none }

/-!  General lemmas about the grouping combinators. -/

theorem mem_keysOf {α κ : Type} [DecidableEq κ] (key : α → κ) (l : List α)
    (k : κ) : k ∈ keysOf key l ↔ ∃ a ∈ l, key a = k := by
  simp [keysOf, List.mem_dedup]

theorem nodup_keysOf {α κ : Type} [DecidableEq κ] (key : α → κ) (l : List α) :
    (keysOf key l).Nodup :=
  List.nodup_dedup _

theorem mem_groupAgg {α κ β : Type} [DecidableEq κ] {key : α → κ}
    {agg : List α → β} {l : List α} {p : κ × β} (hp : p ∈ groupAgg key agg l) :
    p.1 ∈ keysOf key l ∧ p.2 = agg (l.filter (fun a => decide (key a = p.1))) := by
  simp only [groupAgg, List.mem_map] at hp
  obtain ⟨k, hk, hkp⟩ := hp
  cases hkp
  exact ⟨hk, rfl⟩

theorem flightLookup_perm {l1 l2 : List (FKey × Nat)} (h : List.Perm l1 l2)
    (k : FKey) : flightLookup l1 k = flightLookup l2 k :=
  ((h.filter _).map _).sum_eq

theorem flightLookup_append (l1 l2 : List (FKey × Nat)) (k : FKey) :
    flightLookup (l1 ++ l2) k = flightLookup l1 k + flightLookup l2 k := by
  simp [flightLookup, List.filter_append]

theorem flightLookup_map_keys (g : FKey → Nat) (ks : List FKey)
    (hnd : ks.Nodup) (k : FKey) :
    flightLookup (ks.map (fun x => (x, g x))) k = if k ∈ ks then g k else 0 := by
  induction ks with
  | nil => simp [flightLookup]
  | cons a as ih =>
    rcases List.nodup_cons.mp hnd with ⟨ha, hnd2⟩
    have ihr := ih hnd2
    by_cases hak : a = k
    · have hka : k ∉ as := hak ▸ ha
      have h0 : flightLookup (as.map (fun x => (x, g x))) k = 0 := by
        rw [ihr, if_neg hka]
      simp only [flightLookup, List.map_cons, List.filter_cons] at h0 ⊢
      simp [hak, h0]
    · have hka : ¬(k = a) := fun h => hak h.symm
      simp only [flightLookup, List.map_cons, List.filter_cons] at ihr ⊢
      simp [hak, hka, ihr]

theorem flightLookup_groupAgg {α : Type} (key : α → FKey) (f : List α → Nat)
    (hf : f [] = 0) (l : List α) (k : FKey) :
    flightLookup (groupAgg key f l) k =
      f (l.filter (fun a => decide (key a = k))) := by
  have h := flightLookup_map_keys
    (fun x => f (l.filter (fun a => decide (key a = x)))) (keysOf key l)
    (nodup_keysOf key l) k
  unfold groupAgg
  rw [h]
  by_cases hk : k ∈ keysOf key l
  · rw [if_pos hk]
  · rw [if_neg hk]
    have : l.filter (fun a => decide (key a = k)) = [] := by
      rw [List.filter_eq_nil_iff]
      intro a ha
      simp only [decide_eq_true_eq]
      intro hka
      exact hk ((mem_keysOf key l k).mpr ⟨a, ha, hka⟩)
    rw [this, hf]

/-!  Lemmas about the flight aggregation and the dashboard merge. -/

theorem flightLookup_pfd (df : List MappedRow) (d : FDirection)
    (g : FGranular) (c : Option (List String)) (k : FKey) :
    flightLookup (process_flight_data df d g c) k =
      ((flightKept d c df).filter (fun r => decide (fKeyOf g r = k))).length := by
  unfold process_flight_data
  rw [flightLookup_perm (List.perm_insertionSort _ _) k,
    flightLookup_groupAgg _ _ rfl]

theorem flightLookup_merge (f1 f2 : List (FKey × Nat)) (k : FKey)
    (hk : fKeyAllSome k = true) :
    flightLookup (mergeFlightFiles f1 f2) k =
      flightLookup f1 k + flightLookup f2 k := by
  unfold mergeFlightFiles
  rw [flightLookup_perm (List.perm_insertionSort _ _) k,
    flightLookup_groupAgg _ _ rfl]
  rw [List.filter_filter]
  have hcong : ∀ p ∈ f1 ++ f2,
      (decide (p.1 = k) && fKeyAllSome p.1) = decide (p.1 = k) := by
    intro p _
    by_cases hp : p.1 = k
    · simp [hp, hk]
    · simp [hp]
  rw [List.filter_congr hcong]
  exact flightLookup_append f1 f2 k

theorem flightKept_append (d : FDirection) (c : Option (List String))
    (A B : List MappedRow) :
    flightKept d c (A ++ B) = flightKept d c A ++ flightKept d c B := by
  unfold flightKept
  cases c with
  | none => simp [List.filter_append]
  | some cs =>
    cases cs with
    | nil => simp [List.filter_append]
    | cons x xs => simp [List.filter_append]

theorem sparkNeq_beq_false {a b : Option String} (h : sparkNeq a b = true) :
    (a == b) = false := by
  cases a with
  | none => simp [sparkNeq] at h
  | some x =>
    cases b with
    | none => simp [sparkNeq] at h
    | some y =>
      simp only [sparkNeq, decide_eq_true_eq] at h
      simp [h]

theorem flightKept_drop_domestic (d : FDirection) (c : Option (List String))
    (df : List MappedRow) :
    flightKept d c
        (df.filter (fun r => !(r.origin_country_code == r.destination_country_code))) =
      flightKept d c df := by
  unfold flightKept
  have key : ∀ (p : MappedRow → Bool),
      (List.filter (fun r => sparkNeq r.origin_country_code r.destination_country_code)
        (List.filter p
          (df.filter (fun r => !(r.origin_country_code == r.destination_country_code))))) =
      (List.filter (fun r => sparkNeq r.origin_country_code r.destination_country_code)
        (List.filter p df)) := by
    intro p
    rw [List.filter_filter, List.filter_filter, List.filter_filter]
    apply List.filter_congr
    intro r _
    by_cases hs : sparkNeq r.origin_country_code r.destination_country_code = true
    · simp [hs, sparkNeq_beq_false hs]
    · have hsf : sparkNeq r.origin_country_code r.destination_country_code = false := by
        simpa using hs
      simp [hsf]
  cases c with
  | none =>
    have := key (fun _ => true)
    simpa using this
  | some cs =>
    cases cs with
    | nil =>
      have := key (fun _ => true)
      simpa using this
    | cons x xs => exact key (fun r => optIsin (dirCountry d r) (x :: xs))

theorem optIsin_unpack {v : Option String} {cs : List String}
    (h : optIsin v cs = true) : ∃ s, v = some s ∧ s ∈ cs := by
  cases v with
  | none => simp [optIsin] at h
  | some s =>
    refine ⟨s, rfl, ?_⟩
    simp only [optIsin] at h
    exact List.mem_of_elem_eq_true h

theorem mem_pfd_key {df : List MappedRow} {d : FDirection} {g : FGranular}
    {c : Option (List String)} {p : FKey × Nat}
    (hp : p ∈ process_flight_data df d g c) :
    ∃ r ∈ flightKept d c df, fKeyOf g r = p.1 := by
  unfold process_flight_data at hp
  have hp2 := (List.perm_insertionSort _ _).mem_iff.mp hp
  have hk := (mem_groupAgg hp2).1
  exact (mem_keysOf _ _ _).mp hk

theorem mem_flightKept_isin {df : List MappedRow} {d : FDirection}
    {x : String} {xs : List String} {r : MappedRow}
    (hr : r ∈ flightKept d (some (x :: xs)) df) :
    optIsin (dirCountry d r) (x :: xs) = true := by
  unfold flightKept at hr
  exact (List.mem_filter.mp (List.mem_filter.mp hr).1).2

/-!  Lemmas about the COVID daily/monthly processing. -/

theorem withLag_date_mem {p : Option CovidGroupRow} {l : List CovidGroupRow}
    {r : CovidDailyRow} (h : r ∈ withLag p l) :
    ∃ g ∈ l, r.date = g.date := by
  induction l generalizing p with
  | nil => cases h
  | cons g gs ih =>
    rw [withLag] at h
    rcases List.mem_cons.mp h with h1 | h2
    · exact ⟨g, List.mem_cons_self g gs, by rw [h1]; rfl⟩
    · obtain ⟨g2, hg2, hd⟩ := ih h2
      exact ⟨g2, List.mem_cons_of_mem g hg2, hd⟩

theorem covidDailyAgg_date {df : List CovidRow} {c : Option (List String)}
    {g : CovidGroupRow} (h : g ∈ covidDailyAgg df c) :
    ∃ a ∈ cleanCovidDaily df c, g.date = a.lastUpdate := by
  unfold covidDailyAgg at h
  have h2 := (List.perm_insertionSort _ _).mem_iff.mp h
  simp only [List.mem_map] at h2
  obtain ⟨p, hp, hpg⟩ := h2
  have hk := (mem_groupAgg hp).1
  obtain ⟨a, ha, hka⟩ := (mem_keysOf _ _ _).mp hk
  refine ⟨a, ha, ?_⟩
  rw [← hpg, ← hka]
  rfl

theorem covidDateOk_unpack {a : CovidRow} (h : covidDateOk a = true) :
    ∃ dt, a.lastUpdate = some dt ∧ 2020 ≤ dt.y ∧ dt.y ≤ 2024 := by
  cases hu : a.lastUpdate with
  | none => rw [covidDateOk, hu] at h; cases h
  | some dt =>
    rw [covidDateOk, hu] at h
    simp only [Bool.and_eq_true, decide_eq_true_eq] at h
    exact ⟨dt, rfl, h.1, h.2⟩

theorem mem_cleanCovidDaily_dateOk {df : List CovidRow}
    {c : Option (List String)} {a : CovidRow}
    (h : a ∈ cleanCovidDaily df c) : covidDateOk a = true := by
  unfold cleanCovidDaily at h
  cases c with
  | none => exact (List.mem_filter.mp h).2
  | some cs => exact (List.mem_filter.mp h).2

theorem daily_date_bound {df : List CovidRow} {c : Option (List String)}
    {r : CovidDailyRow} (h : r ∈ process_covid_daily_data df c) :
    ∃ dt, r.date = some dt ∧ 2020 ≤ dt.y ∧ dt.y ≤ 2024 := by
  unfold process_covid_daily_data at h
  obtain ⟨g, hg, hrg⟩ := withLag_date_mem h
  have hg2 := (List.perm_insertionSort _ _).mem_iff.mp hg
  obtain ⟨a, ha, hga⟩ := covidDailyAgg_date hg2
  obtain ⟨dt, hdt, h1, h2⟩ := covidDateOk_unpack (mem_cleanCovidDaily_dateOk ha)
  exact ⟨dt, by rw [hrg, hga, hdt], h1, h2⟩

/-!  Projection lemmas for `mainWithRefs`. -/

theorem mainWithRefs_covidAllFile (env : Env) (ym : String) (cs : List String)
    (a : List Airport) (c : List CountryRef)
    (covm : Option (List CovidMonthlyRow)) :
    (mainWithRefs env ym cs a c covm).covidAllFile =
      covm.map (fun cm => ("covid_" ++ ym ++ "_all.csv", cm)) := by
  simp only [mainWithRefs]
  split <;> rfl

theorem mainWithRefs_covidCountryFile (env : Env) (ym : String)
    (cs : List String) (a : List Airport) (c : List CountryRef)
    (covm : Option (List CovidMonthlyRow)) :
    (mainWithRefs env ym cs a c covm).covidCountryFile =
      (match covm with
       | some cm =>
           if pyTruthyL cs then
             some ("covid_" ++ ym ++ "_" ++ scopeOf cs ++ ".csv",
               cm.filter (fun r => optIsin r.countryRegion cs))
           else none
       | none => none) := by
  simp only [mainWithRefs]
  cases covm with
  | none => rfl
  | some cm => cases hb : pyTruthyL cs <;> simp [hb]

theorem mainWithRefs_flightFile (env : Env) (ym : String) (cs : List String)
    (a : List Airport) (c : List CountryRef)
    (covm : Option (List CovidMonthlyRow)) :
    (mainWithRefs env ym cs a c covm).flightFile =
      (load_flight_data env ym).map (fun f =>
        ("flight_" ++ ym ++ "_" ++ scopeOf cs ++ ".csv",
          process_flight_data (map_flight_data f a c) .destination .year_month
            (some (cs.map usReplace)))) := by
  simp only [mainWithRefs]
  split <;> cases hl : load_flight_data env ym <;> simp [hl]

/-!  Claim theorems. -/

/-- C1: the claim says each counter's daily delta is computed within the
country's own row sequence (per-country window, null on each country's
first day).  The code's window (`Window.partitionBy().orderBy('date')`,
line 121) is global: on the failing input below, country `B`'s first and
only row receives `Confirmed_daily_new = 7 - 5 = 2`, subtracting country
`A`'s cumulative value, where the claim requires a null delta. -/
theorem covid_daily_delta_crosses_countries :
    (process_covid_daily_data [cRowA, cRowB] none).map
        (fun r => (r.countryRegion, r.confirmedDailyNew)) =
      [(some "A", none), (some "B", some 2)] := by decide

/-- C2: the claim says a run with the country list omitted still
completes.  In the code, `country.copy()` at line 260 is evaluated
unconditionally, so `main` raises `AttributeError` on `None` before any
processing, for every environment and period: no file is written and the
run aborts. -/
theorem main_crashes_without_country_list (env : Env) (ym : String) :
    mainRun env ym none =
      { covidAllFile := none, covidCountryFile := none, flightFile := none,
        result :=
          Except.error "AttributeError: NoneType object has no attribute copy" } :=
  rfl

/-- C3: the claim says monthly-new sums only a country's own valid daily
deltas, the first day of a country's series contributing none.  Because
the daily window is global (see `covid_daily_delta_crosses_countries`),
country `B`'s single-row March series gets `Confirmed_monthly_new =
some 2` — a delta borrowed from country `A` — where the claim requires
no contribution (a null sum), as computed for country `A`. -/
theorem covid_monthly_new_includes_cross_country_delta :
    (process_covid_monthly_data (process_covid_daily_data [cRowA, cRowB] none)).map
        (fun r => (r.countryRegion, r.yearMonth, r.confirmedCumulative,
          r.confirmedMonthlyNew)) =
      [(some "A", some (2021, 1), some 5, none),
       (some "B", some (2021, 1), some 7, some 2)] := by decide

/-- C4: every row of the daily aggregation output, and every row of the
monthly roll-up built from it, carries a non-null date (respectively
year-month) whose year lies in [2020, 2024]; rows with a null date or an
out-of-range year — such as one dated 2682-01-01 — are excluded by the
filter at line 111 and can never surface in either summary. -/
theorem covid_year_range_filter :
    (∀ (df : List CovidRow) (c : Option (List String)) (r : CovidDailyRow),
        r ∈ process_covid_daily_data df c →
        ∃ dt, r.date = some dt ∧ 2020 ≤ dt.y ∧ dt.y ≤ 2024) ∧
    (∀ (df : List CovidRow) (c : Option (List String)) (r : CovidMonthlyRow),
        r ∈ process_covid_monthly_data (process_covid_daily_data df c) →
        ∃ y m, r.yearMonth = some (y, m) ∧ 2020 ≤ y ∧ y ≤ 2024) := by
  constructor
  · intro df c r h
    exact daily_date_bound h
  · intro df c r h
    unfold process_covid_monthly_data at h
    have h2 := (List.perm_insertionSort _ _).mem_iff.mp h
    simp only [List.mem_map] at h2
    obtain ⟨p, hp, hpr⟩ := h2
    have hk := (mem_groupAgg hp).1
    obtain ⟨dr, hdr, hkey⟩ := (mem_keysOf _ _ _).mp hk
    obtain ⟨dt, hdt, h1, hh2⟩ := daily_date_bound hdr
    refine ⟨dt.y, dt.m, ?_, h1, hh2⟩
    rw [← hpr]
    show p.1.1 = some (dt.y, dt.m)
    rw [← hkey]
    show ymOf dr.date = some (dt.y, dt.m)
    rw [hdt]
    rfl

/-- Witness for `covid_year_range_filter`: on the concrete input
`[cRowA, cRowBad]` (one valid 2021 row, one row dated 2682-01-01) the
daily output consists of exactly the valid row, and the theorem yields
its in-range date. -/
theorem covid_year_range_filter_witness :
    c4Row ∈ process_covid_daily_data [cRowA, cRowBad] none ∧
    (∃ dt, c4Row.date = some dt ∧ 2020 ≤ dt.y ∧ dt.y ≤ 2024) :=
  ⟨by decide,
    covid_year_range_filter.1 [cRowA, cRowBad] none c4Row (by decide)⟩

/-- C5: itineraries whose origin country-code equals their destination
country-code never enter the flight aggregation: for every direction,
granularity and country filter, deleting all such rows from the input
leaves `process_flight_data` unchanged, because the filter at line 238
(`origin_country_code != destination_country_code`, applied before the
`groupBy` counts anything) already drops them — including rows whose
country names differ while the codes agree. -/
theorem flight_domestic_excluded (df : List MappedRow) (d : FDirection)
    (g : FGranular) (c : Option (List String)) :
    process_flight_data df d g c =
      process_flight_data
        (df.filter (fun r => !(r.origin_country_code == r.destination_country_code)))
        d g c := by
  unfold process_flight_data
  rw [flightKept_drop_domestic]

/-- C6 counterexample: the claim says each run produces both an
all-countries file and a filtered file for *each* summary kind.  On a
run with period 202101 and country list `["US"]` in which every load
succeeds, exactly three files are written — there is no all-countries
flight file `flight_202101_all.csv`. -/
theorem main_no_flight_all_file :
    (mainRun exEnv "202101" (some ["US"])).saved =
      ["covid_202101_all.csv", "covid_202101_US.csv", "flight_202101_US.csv"] ∧
    "flight_202101_all.csv" ∉ (mainRun exEnv "202101" (some ["US"])).saved := by
  constructor
  · decide
  · decide

/-- C6 amended: on a run whose loads all succeed and whose country list
is non-empty, the exports are exactly `covid_<ym>_all.csv`,
`covid_<ym>_<scope>.csv` and `flight_<ym>_<scope>.csv` (in that order),
where `scope` joins the country list with double underscores, mapping
spaces to underscores and `*` to `all`; the COVID summary gets an
all-countries file and a filtered file, but the flight summary gets only
the filtered file. -/
theorem main_export_filenames (dcov : List CovidRow) (dfl : List FlightRow)
    (ap : List Airport) (cn : List CountryRef) (ym : String)
    (cs : List String) (h : cs ≠ []) :
    (mainRun
        { covidLoad := fun _ => some dcov, flightLoad := fun _ => some dfl,
          airportsLoad := Except.ok ap, countriesLoad := Except.ok cn }
        ym (some cs)).saved =
      ["covid_" ++ ym ++ "_all.csv",
       "covid_" ++ ym ++ "_" ++ scopeOf cs ++ ".csv",
       "flight_" ++ ym ++ "_" ++ scopeOf cs ++ ".csv"] := by
  cases cs with
  | nil => exact absurd rfl h
  | cons x xs => rfl

/-- Witness for `main_export_filenames` at period 202101 and country
list `["US"]`. -/
theorem main_export_filenames_witness :
    (["US"] : List String) ≠ [] ∧
    (mainRun
        { covidLoad := fun _ => some [cRowA, cRowB],
          flightLoad := fun _ => some exFlights,
          airportsLoad := Except.ok exAirports,
          countriesLoad := Except.ok exCountries }
        "202101" (some ["US"])).saved =
      ["covid_" ++ "202101" ++ "_all.csv",
       "covid_" ++ "202101" ++ "_" ++ scopeOf ["US"] ++ ".csv",
       "flight_" ++ "202101" ++ "_" ++ scopeOf ["US"] ++ ".csv"] :=
  ⟨by decide,
    main_export_filenames [cRowA, cRowB] exFlights exAirports exCountries
      "202101" ["US"] (by decide)⟩

/-- C7: the claim says a missing per-period input file only skips that
source, the run otherwise completing, with aborts reserved for
reference-table failures.  When the COVID file is missing (loader
returns `None`) but the flight side succeeds, the run does continue —
it writes the flight export — yet the `return` at line 291 then raises
`NameError` (`covid_monthly_country` was never assigned), so the run
still aborts with an uncaught exception that is not a reference-table
failure. -/
theorem main_covid_missing_aborts_at_return :
    (mainRun exEnvNoCovid "202101" (some ["US"])).saved =
      ["flight_202101_US.csv"] ∧
    (mainRun exEnvNoCovid "202101" (some ["US"])).result =
      Except.error "NameError: name covid_monthly_country is not defined" := by
  constructor
  · decide
  · decide

/-- C8 counterexample: the claim says merging two flight files covering
overlapping months reproduces the aggregation of the union of the
underlying raw itineraries.  Export the same single-itinerary batch
`[mRow]` twice (two files covering the same month, underlying union
`[mRow]`): the dashboard merge carries count 2 for the itinerary's key
while aggregating the union directly gives 1. -/
theorem flight_merge_double_counts_overlap :
    flightLookup
        (mergeFlightFiles
          (process_flight_data [mRow] FDirection.destination FGranular.year_month none)
          (process_flight_data [mRow] FDirection.destination FGranular.year_month none))
        mKey = 2 ∧
    flightLookup
        (process_flight_data [mRow] FDirection.destination FGranular.year_month none)
        mKey = 1 := by
  constructor
  · decide
  · decide

/-- C8 amended: the dashboard merge is additive rather than idempotent:
for any two exported flight files, concatenating them and re-summing
`flight_count` by the full key gives, per (fully non-null) key, the
count obtained by aggregating the *concatenation* of the two underlying
raw itinerary batches — overlapping periods are double-counted, not
deduplicated. -/
theorem flight_merge_additive (A B : List MappedRow) (d : FDirection)
    (g : FGranular) (c : Option (List String)) (k : FKey)
    (hk : fKeyAllSome k = true) :
    flightLookup
        (mergeFlightFiles (process_flight_data A d g c)
          (process_flight_data B d g c)) k =
      flightLookup (process_flight_data (A ++ B) d g c) k := by
  rw [flightLookup_merge _ _ _ hk, flightLookup_pfd, flightLookup_pfd,
    flightLookup_pfd, flightKept_append, List.filter_append, List.length_append]

/-- Witness for `flight_merge_additive` on the concrete batches `[mRow]`
and `[]` at the key of `mRow`. -/
theorem flight_merge_additive_witness :
    fKeyAllSome mKey = true ∧
    flightLookup
        (mergeFlightFiles
          (process_flight_data [mRow] FDirection.destination FGranular.year_month none)
          (process_flight_data [] FDirection.destination FGranular.year_month none))
        mKey =
      flightLookup
        (process_flight_data ([mRow] ++ []) FDirection.destination
          FGranular.year_month none) mKey :=
  ⟨by decide,
    flight_merge_additive [mRow] [] FDirection.destination FGranular.year_month
      none mKey (by decide)⟩

/-- C9: with a country list supplied, the allow-list handed to the
flight aggregation is the list with every `US` entry replaced by
`United States` (line 261), so every row of the exported flight table
has a destination country drawn from the substituted list, while the
COVID export filter (line 284) uses the original entries, so every row
of the country COVID file has its `Country_Region` in the original
list; in particular `["US"]` maps to `["United States"]` on the flight
side and stays `["US"]` on the COVID side. -/
theorem main_us_substitution (env : Env) (ym : String) (cs : List String)
    (h : cs ≠ []) :
    (∀ n rows, (mainRun env ym (some cs)).flightFile = some (n, rows) →
      ∀ p ∈ rows, ∃ v, p.1.destination_country = some v ∧
        v ∈ cs.map usReplace) ∧
    (∀ n rows, (mainRun env ym (some cs)).covidCountryFile = some (n, rows) →
      ∀ r ∈ rows, ∃ v, r.countryRegion = some v ∧ v ∈ cs) ∧
    List.map usReplace ["US"] = ["United States"] := by
  refine ⟨?_, ?_, rfl⟩
  · intro n rows hfl p hp
    simp only [mainRun] at hfl
    cases ha : env.airportsLoad with
    | error e => rw [ha] at hfl; simp at hfl
    | ok a =>
      rw [ha] at hfl
      cases hc : env.countriesLoad with
      | error e => rw [hc] at hfl; simp at hfl
      | ok c =>
        rw [hc] at hfl
        have hfl2 : (mainWithRefs env ym cs a c
            (covidStage env (covidPattern ym))).flightFile = some (n, rows) := hfl
        rw [mainWithRefs_flightFile] at hfl2
        cases hl : load_flight_data env ym with
        | none => rw [hl] at hfl2; simp at hfl2
        | some f =>
          rw [hl] at hfl2
          simp only [Option.map_some', Option.some_inj, Prod.mk.injEq] at hfl2
          have hrows : rows = process_flight_data (map_flight_data f a c)
              FDirection.destination FGranular.year_month
              (some (cs.map usReplace)) := hfl2.2.symm
          rw [hrows] at hp
          obtain ⟨r, hr, hkey⟩ := mem_pfd_key hp
          cases cs with
          | nil => exact absurd rfl h
          | cons x xs =>
            have hr2 : r ∈ flightKept FDirection.destination
                (some (usReplace x :: xs.map usReplace))
                (map_flight_data f a c) := hr
            have hisin := mem_flightKept_isin hr2
            obtain ⟨v, hv, hvmem⟩ := optIsin_unpack hisin
            refine ⟨v, ?_, ?_⟩
            · rw [← hkey]
              exact hv
            · exact hvmem
  · intro n rows hcf r hr
    simp only [mainRun] at hcf
    cases ha : env.airportsLoad with
    | error e => rw [ha] at hcf; simp at hcf
    | ok a =>
      rw [ha] at hcf
      cases hc : env.countriesLoad with
      | error e => rw [hc] at hcf; simp at hcf
      | ok c =>
        rw [hc] at hcf
        have hcf2 : (mainWithRefs env ym cs a c
            (covidStage env (covidPattern ym))).covidCountryFile =
              some (n, rows) := hcf
        rw [mainWithRefs_covidCountryFile] at hcf2
        cases hcm : covidStage env (covidPattern ym) with
        | none => rw [hcm] at hcf2; simp at hcf2
        | some cm =>
          rw [hcm] at hcf2
          cases hb : pyTruthyL cs with
          | false => simp [hb] at hcf2
          | true =>
            simp only [hb, if_true, Option.some_inj, Prod.mk.injEq] at hcf2
            have hrows : rows = cm.filter (fun q => optIsin q.countryRegion cs) :=
              hcf2.2.symm
            rw [hrows] at hr
            have hin := (List.mem_filter.mp hr).2
            exact optIsin_unpack hin

/-- C10: the computed COVID country-month summary does not depend on the
country argument: `main` always calls the daily processing with `None`
(line 265), so for any two supplied country lists the all-countries
COVID table is identical, and the country-specific COVID file is exactly
that shared table filtered by the requested list — the country argument
only selects which rows are exported. -/
theorem main_covid_summary_independent (env : Env) (ym : String)
    (c1 c2 : List String) :
    (mainRun env ym (some c1)).covidAllRows =
      (mainRun env ym (some c2)).covidAllRows ∧
    (mainRun env ym (some c1)).covidCountryRows =
      ((mainRun env ym (some c1)).covidAllRows).filter
        (fun r => optIsin r.countryRegion c1) := by
  cases ha : env.airportsLoad with
  | error e =>
    have e1 : mainRun env ym (some c1) =
        { covidAllFile := none, covidCountryFile := none, flightFile := none,
          result := Except.error e } := by
      simp [mainRun, ha]
    have e2 : mainRun env ym (some c2) =
        { covidAllFile := none, covidCountryFile := none, flightFile := none,
          result := Except.error e } := by
      simp [mainRun, ha]
    rw [e1, e2]
    exact ⟨rfl, rfl⟩
  | ok a =>
    cases hc : env.countriesLoad with
    | error e =>
      have e1 : mainRun env ym (some c1) =
          { covidAllFile := none, covidCountryFile := none, flightFile := none,
            result := Except.error e } := by
        simp [mainRun, ha, hc]
      have e2 : mainRun env ym (some c2) =
          { covidAllFile := none, covidCountryFile := none, flightFile := none,
            result := Except.error e } := by
        simp [mainRun, ha, hc]
      rw [e1, e2]
      exact ⟨rfl, rfl⟩
    | ok c =>
      have e1 : mainRun env ym (some c1) =
          mainWithRefs env ym c1 a c (covidStage env (covidPattern ym)) := by
        simp [mainRun, ha, hc]
      have e2 : mainRun env ym (some c2) =
          mainWithRefs env ym c2 a c (covidStage env (covidPattern ym)) := by
        simp [mainRun, ha, hc]
      rw [e1, e2]
      constructor
      · unfold MainOutcome.covidAllRows
        rw [mainWithRefs_covidAllFile, mainWithRefs_covidAllFile]
      · unfold MainOutcome.covidAllRows MainOutcome.covidCountryRows
        rw [mainWithRefs_covidAllFile, mainWithRefs_covidCountryFile]
        cases hcm : covidStage env (covidPattern ym) with
        | none => rfl
        | some cm =>
          cases hb : pyTruthyL c1 with
          | true => simp [hb]
          | false =>
            have hnil : c1 = [] := by
              cases c1 with
              | nil => rfl
              | cons y ys => simp [pyTruthyL] at hb
            subst hnil
            simp only [hb, Bool.false_eq_true, if_false, Option.map_none',
              Option.getD_none, Option.map_some', Option.getD_some]
            symm
            rw [List.filter_eq_nil_iff]
            intro q _
            cases hreg : q.countryRegion <;> simp [optIsin]

/-- Witness for `main_us_substitution`: on the concrete run with country
list `["US"]`, the single exported flight row has destination country
`United States`, a member of the substituted allow-list. -/
theorem main_us_substitution_witness :
    (["US"] : List String) ≠ [] ∧
    (∃ v, mKey.destination_country = some v ∧
      v ∈ (["US"] : List String).map usReplace) :=
  ⟨by decide,
    (main_us_substitution exEnv "202101" ["US"] (by decide)).1
      "flight_202101_US.csv" [(mKey, 1)] (by decide) (mKey, 1) (by decide)⟩
